import Mathlib

/-!
Verification development for the Secret Hitler rules engine in
`src/src/game/game_engine.py`, `src/src/game/entities.py` and
`src/src/game/rules.py`.

The Python classes are shallowly embedded as Lean structures and pure
functions.  Python exceptions (`ValueError`, `AttributeError`, `IndexError`)
become `Except GameError`; `random.shuffle` is modelled by an explicit
`shuffle : List PolicyType -> List PolicyType` parameter (an arbitrary
permutation chosen by the environment); the unbounded `while` loop in
`GameState.advance_president` is modelled by a bounded search with fuel equal
to the player count, which agrees with the loop whenever a living player
exists.  Python's aliasing of `Player` objects (the same object is stored in
`players`, in governments and in `previous_*` fields) is modelled by updating
the `players` list at the matching player id at the places where the source
mutates a shared `Player` object.
-/

set_option maxHeartbeats 1000000

namespace SecretHitler

/-- `Role` from entities.py. -/
inductive Role where
  | liberal
  | fascist
  | hitler
deriving DecidableEq, Repr

/-- `Party` from entities.py. -/
inductive Party where
  | liberal
  | fascist
deriving DecidableEq, Repr

/-- `PolicyType` from entities.py. -/
inductive PolicyType where
  | liberal
  | fascist
deriving DecidableEq, Repr

/-- `GamePhase` from entities.py. -/
inductive GamePhase where
  | nomination
  | election
  | legislativeSession
  | executiveAction
  | gameOver
deriving DecidableEq, Repr

/-- `Vote` from entities.py. -/
inductive Vote where
  | ja
  | nein
deriving DecidableEq, Repr

/-- `Player` dataclass from entities.py. -/
structure Player where
  id : Nat
  name : String
  role : Role
  party : Party
  is_alive : Bool := true
  is_term_limited : Bool := false
deriving DecidableEq, Repr

/-- `Player.is_hitler` property. -/
def Player.is_hitler (p : Player) : Bool :=
  p.role == Role.hitler

/-- `Player.is_fascist` property (party membership, includes Hitler). -/
def Player.is_fascist (p : Player) : Bool :=
  p.party == Party.fascist

/-- `Player.is_liberal` property. -/
def Player.is_liberal (p : Player) : Bool :=
  p.party == Party.liberal

/-- `Government` dataclass from entities.py. -/
structure Government where
  president : Player
  chancellor : Player
  is_elected : Bool := false
deriving DecidableEq, Repr

/-- `GameState` dataclass from entities.py. -/
structure GameState where
  players : List Player
  liberal_policies : Nat := 0
  fascist_policies : Nat := 0
  election_tracker : Nat := 0
  draw_pile : List PolicyType := []
  discard_pile : List PolicyType := []
  current_president_index : Nat := 0
  current_government : Option Government := none
  previous_president : Option Player := none
  previous_chancellor : Option Player := none
  phase : GamePhase := GamePhase.nomination
  round_number : Nat := 1
  game_over : Bool := false
  winner : Option Party := none
deriving DecidableEq, Repr

/-- `GameState.get_current_president`; Python indexing that can raise
`IndexError` is modelled with `Option`. -/
def GameState.get_current_president (st : GameState) : Option Player :=
  st.players[st.current_president_index]?

/-- Whether the player stored at slot `i` is alive (out-of-range slots count
as not alive). -/
def aliveAt (players : List Player) (i : Nat) : Bool :=
  match players[i]? with
  | some p => p.is_alive
  | none => false

/-- Bounded search modelling the `while not alive` loop of
`GameState.advance_president`: starting at slot `i`, return the first slot
holding a living player, stepping `(i + 1) % len(players)` as the source
does; `fuel` bounds the number of probes. -/
def findLiving (players : List Player) : Nat → Nat → Nat
  | 0, i => i
  | fuel + 1, i =>
      if aliveAt players i then i else findLiving players fuel ((i + 1) % players.length)

/-- `GameState.advance_president` from entities.py: one unconditional
increment modulo the full player count, then skip dead players.  Fuel
`players.length` makes the bounded search agree with the source loop whenever
a living player exists. -/
def GameState.advance_president (st : GameState) : GameState :=
  let idx :=
    findLiving st.players st.players.length
      ((st.current_president_index + 1) % st.players.length)
  { st with current_president_index := idx }

/-- Errors of the engine; Python raises `ValueError` with a message for the
first four, and the last two model `AttributeError` on a `None` government
and `IndexError` on an empty deck. -/
inductive GameError where
  | invalidPlayerCount
  | ineligibleChancellor
  | voteCountMismatch
  | invalidPolicyCount
  | policyNotInHand
  | attributeError
  | indexError
deriving DecidableEq, Repr

namespace GameConfig

/-- `GameConfig.LIBERAL_POLICIES_TO_WIN` from rules.py. -/
def LIBERAL_POLICIES_TO_WIN : Nat := 5

/-- `GameConfig.FASCIST_POLICIES_TO_WIN` from rules.py. -/
def FASCIST_POLICIES_TO_WIN : Nat := 6

/-- `GameConfig.ELECTION_TRACKER_MAX` from rules.py. -/
def ELECTION_TRACKER_MAX : Nat := 3

/-- `GameConfig.ROLE_DISTRIBUTION` and `get_roles_for_player_count` from
rules.py, before the shuffle; `none` models the `ValueError` on an invalid
player count. -/
def get_roles_for_player_count (n : Nat) : Option (List Role) :=
  let dist : Option (Nat × Nat) :=
    match n with
    | 5 => some (3, 1)
    | 6 => some (4, 1)
    | 7 => some (4, 2)
    | 8 => some (5, 2)
    | 9 => some (5, 3)
    | 10 => some (6, 3)
    | _ => none
  dist.map (fun d =>
    List.replicate d.1 Role.liberal ++ List.replicate d.2 Role.fascist ++ [Role.hitler])

/-- `GameConfig.create_initial_draw_pile` from rules.py: 6 liberal and 11
fascist policies, shuffled. -/
def create_initial_draw_pile (shuffle : List PolicyType → List PolicyType) :
    List PolicyType :=
  shuffle (List.replicate 6 PolicyType.liberal ++ List.replicate 11 PolicyType.fascist)

/-- `GameConfig.EXECUTIVE_ACTIONS` and `get_executive_action` from rules.py. -/
def get_executive_action (num_players fascist_policies : Nat) : Option String :=
  match num_players with
  | 5 | 6 =>
      match fascist_policies with
      | 3 => some "peek"
      | 4 | 5 => some "execution"
      | _ => none
  | 7 | 8 =>
      match fascist_policies with
      | 2 => some "investigate"
      | 3 => some "special_election"
      | 4 | 5 => some "execution"
      | _ => none
  | 9 | 10 =>
      match fascist_policies with
      | 1 | 2 => some "investigate"
      | 3 => some "special_election"
      | 4 | 5 => some "execution"
      | _ => none
  | _ => none

/-- `GameConfig.get_party_from_role` from rules.py. -/
def get_party_from_role (role : Role) : Party :=
  match role with
  | Role.fascist | Role.hitler => Party.fascist
  | Role.liberal => Party.liberal

end GameConfig

/-- `SecretHitlerGame` from game_engine.py: the engine object carries the
original player count and the state. -/
structure SecretHitlerGame where
  num_players : Nat
  state : GameState
deriving DecidableEq, Repr

namespace SecretHitlerGame

/-- `SecretHitlerGame._end_game`. -/
def end_game (st : GameState) (winner : Party) : GameState :=
  { st with game_over := true, winner := some winner, phase := GamePhase.gameOver }

/-- `SecretHitlerGame._initialize_game` plus the constructor check, with the
role shuffle, the deck shuffle and `random.randint` starting president made
explicit parameters. -/
def initialize_game (shuffleRoles : List Role → List Role)
    (shuffleDeck : List PolicyType → List PolicyType) (starting_president : Nat)
    (player_names : List String) : Except GameError SecretHitlerGame :=
  if player_names.length < 5 || 10 < player_names.length then
    Except.error GameError.invalidPlayerCount
  else
    match GameConfig.get_roles_for_player_count player_names.length with
    | none => Except.error GameError.invalidPlayerCount
    | some base_roles =>
        let roles := shuffleRoles base_roles
        let players := (player_names.zip roles).enum.map (fun pr =>
          { id := pr.1, name := pr.2.1, role := pr.2.2,
            party := GameConfig.get_party_from_role pr.2.2 : Player })
        Except.ok
          { num_players := player_names.length,
            state :=
              { players := players,
                draw_pile := GameConfig.create_initial_draw_pile shuffleDeck,
                current_president_index := starting_president } }

/-- `SecretHitlerGame.get_eligible_chancellors`; `none` models the
`IndexError` were the president slot out of range. -/
def get_eligible_chancellors (g : SecretHitlerGame) : Option (List Player) :=
  match g.state.get_current_president with
  | none => none
  | some president =>
      some (g.state.players.filter (fun player =>
        player.is_alive &&
        player.id != president.id &&
        !player.is_term_limited &&
        (match g.state.previous_chancellor with
         | some pc => player.id != pc.id
         | none => true) &&
        (match g.state.previous_president with
         | some pp => if 5 < g.num_players then player.id != pp.id else true
         | none => true)))

/-- `SecretHitlerGame.nominate_chancellor`. -/
def nominate_chancellor (g : SecretHitlerGame) (chancellor : Player) :
    Except GameError (Government × SecretHitlerGame) :=
  match g.get_eligible_chancellors with
  | none => Except.error GameError.indexError
  | some eligible =>
      if !eligible.contains chancellor then
        Except.error GameError.ineligibleChancellor
      else
        match g.state.get_current_president with
        | none => Except.error GameError.indexError
        | some president =>
            let government : Government := { president := president, chancellor := chancellor }
            Except.ok (government,
              { g with state :=
                  { g.state with current_government := some government,
                                 phase := GamePhase.election } })

/-- `SecretHitlerGame._advance_to_next_government`. -/
def advance_to_next_government (g : SecretHitlerGame) : SecretHitlerGame :=
  { g with state :=
      { g.state.advance_president with
          current_government := none,
          phase := GamePhase.nomination,
          round_number := g.state.round_number + 1 } }

/-- `SecretHitlerGame.draw_policies`: reshuffle the discard pile into the
draw pile when fewer than `count` policies remain, then take the top
`count`. -/
def draw_policies (shuffle : List PolicyType → List PolicyType)
    (g : SecretHitlerGame) (count : Nat) : List PolicyType × SecretHitlerGame :=
  let st :=
    if g.state.draw_pile.length < count then
      { g.state with draw_pile := shuffle (g.state.draw_pile ++ g.state.discard_pile),
                     discard_pile := [] }
    else g.state
  (st.draw_pile.take count,
   { g with state := { st with draw_pile := st.draw_pile.drop count } })

/-- `SecretHitlerGame._chaos_policy`: draw one policy and enact it directly;
`indexError` models the `IndexError` on a fully empty deck. -/
def chaos_policy (shuffle : List PolicyType → List PolicyType)
    (g : SecretHitlerGame) : Except GameError SecretHitlerGame :=
  let drawn := g.draw_policies shuffle 1
  match drawn.1 with
  | [] => Except.error GameError.indexError
  | policy :: _ =>
      let g := drawn.2
      if policy == PolicyType.liberal then
        let st := { g.state with liberal_policies := g.state.liberal_policies + 1 }
        let st :=
          if GameConfig.LIBERAL_POLICIES_TO_WIN ≤ st.liberal_policies then
            end_game st Party.liberal
          else st
        Except.ok { g with state := st }
      else
        let st := { g.state with fascist_policies := g.state.fascist_policies + 1 }
        let st :=
          if GameConfig.FASCIST_POLICIES_TO_WIN ≤ st.fascist_policies then
            end_game st Party.fascist
          else st
        Except.ok { g with state := st }

/-- `SecretHitlerGame.conduct_election`.  The vote-count check compares
against all players, living or dead, exactly as the source does.  The clear
of the term-limit flags updates the players list (in Python the shared
`Player` objects). -/
def conduct_election (shuffle : List PolicyType → List PolicyType)
    (g : SecretHitlerGame) (votes : List Vote) :
    Except GameError (Bool × SecretHitlerGame) :=
  if votes.length != g.state.players.length then
    Except.error GameError.voteCountMismatch
  else
    let ja_votes := (votes.filter (fun v => v == Vote.ja)).length
    let nein_votes := votes.length - ja_votes
    let elected := nein_votes < ja_votes
    if elected then
      match g.state.current_government with
      | none => Except.error GameError.attributeError
      | some gov =>
          let gov := { gov with is_elected := true }
          let st := { g.state with current_government := some gov, election_tracker := 0 }
          if 3 ≤ st.fascist_policies && gov.chancellor.is_hitler then
            Except.ok (true, { g with state := end_game st Party.fascist })
          else
            let st := { st with
              players := st.players.map (fun p => { p with is_term_limited := false }),
              phase := GamePhase.legislativeSession }
            Except.ok (true, { g with state := st })
    else
      let g := { g with state :=
        { g.state with election_tracker := g.state.election_tracker + 1 } }
      if GameConfig.ELECTION_TRACKER_MAX ≤ g.state.election_tracker then
        match g.chaos_policy shuffle with
        | Except.error e => Except.error e
        | Except.ok g2 =>
            let g3 := { g2 with state := { g2.state with election_tracker := 0 } }
            Except.ok (false, g3.advance_to_next_government)
      else
        Except.ok (false, g.advance_to_next_government)

/-- `SecretHitlerGame.president_discard_policy`. -/
def president_discard_policy (g : SecretHitlerGame) (policies : List PolicyType)
    (discarded : PolicyType) :
    Except GameError (List PolicyType × SecretHitlerGame) :=
  if policies.length != 3 then
    Except.error GameError.invalidPolicyCount
  else if !policies.contains discarded then
    Except.error GameError.policyNotInHand
  else
    let remaining := policies.filter (fun p => p != discarded || 1 < policies.count p)
    let remaining :=
      if remaining.contains discarded then remaining.erase discarded else remaining
    Except.ok (remaining,
      { g with state :=
          { g.state with discard_pile := g.state.discard_pile ++ [discarded] } })

/-- `SecretHitlerGame.chancellor_enact_policy`.  Setting
`current_government.chancellor.is_term_limited = True` mutates a shared
`Player` object in Python, modelled by updating the players list at the
chancellor's id. -/
def chancellor_enact_policy (g : SecretHitlerGame) (policies : List PolicyType)
    (enacted : PolicyType) :
    Except GameError (Option String × SecretHitlerGame) :=
  if policies.length != 2 then
    Except.error GameError.invalidPolicyCount
  else if !policies.contains enacted then
    Except.error GameError.policyNotInHand
  else
    let remaining := policies.erase enacted
    let discarded := match remaining with
      | d :: _ => d
      | [] => enacted
    let st := { g.state with discard_pile := g.state.discard_pile ++ [discarded] }
    let st :=
      if enacted == PolicyType.liberal then
        let st := { st with liberal_policies := st.liberal_policies + 1 }
        if GameConfig.LIBERAL_POLICIES_TO_WIN ≤ st.liberal_policies then
          end_game st Party.liberal
        else st
      else
        let st := { st with fascist_policies := st.fascist_policies + 1 }
        if GameConfig.FASCIST_POLICIES_TO_WIN ≤ st.fascist_policies then
          end_game st Party.fascist
        else st
    match st.current_government with
    | none => Except.error GameError.attributeError
    | some gov =>
        let st := { st with
          previous_president := some gov.president,
          previous_chancellor := some gov.chancellor,
          players := st.players.map (fun p =>
            if p.id == gov.chancellor.id then { p with is_term_limited := true } else p) }
        let g := { g with state := st }
        if enacted == PolicyType.fascist then
          match GameConfig.get_executive_action g.num_players st.fascist_policies with
          | some action =>
              Except.ok (some action,
                { g with state := { st with phase := GamePhase.executiveAction } })
          | none => Except.ok (none, g.advance_to_next_government)
        else
          Except.ok (none, g.advance_to_next_government)

/-- `SecretHitlerGame.execute_player`: `target.is_alive = False` mutates the
shared `Player` object, modelled by updating the players list at the target's
id. -/
def execute_player (g : SecretHitlerGame) (target : Player) : SecretHitlerGame :=
  let st := { g.state with players := g.state.players.map (fun p =>
    if p.id == target.id then { p with is_alive := false } else p) }
  let st := if target.is_hitler then end_game st Party.liberal else st
  advance_to_next_government { g with state := st }

/-- `SecretHitlerGame.special_election`. -/
def special_election (g : SecretHitlerGame) (nominee : Player) : SecretHitlerGame :=
  { g with state :=
      { g.state with current_president_index := nominee.id,
                     phase := GamePhase.nomination,
                     round_number := g.state.round_number + 1 } }

end SecretHitlerGame

/-- The fields of the dictionary built by
`SecretHitlerGame.get_game_info_for_player`; `fascist_team` and `hitler` are
`none` when the corresponding key is absent. -/
structure PlayerInfo where
  player_name : String
  role : Role
  party : Party
  liberal_policies : Nat
  fascist_policies : Nat
  election_tracker : Nat
  alive_players : List String
  phase : GamePhase
  round : Nat
  fascist_team : Option (List String) := none
  hitler : Option String := none
deriving DecidableEq, Repr

/-- `SecretHitlerGame.get_game_info_for_player`: the base public dictionary,
then the fascist-team block for every fascist-party player (which includes
Hitler), then the overwrite of `fascist_team` for Hitler in games with 7 or
more players.  Python's `next(...)` over an empty iterator would raise; it is
modelled with `List.find?`. -/
def SecretHitlerGame.get_game_info_for_player (g : SecretHitlerGame)
    (player : Player) : PlayerInfo :=
  let info : PlayerInfo :=
    { player_name := player.name,
      role := player.role,
      party := player.party,
      liberal_policies := g.state.liberal_policies,
      fascist_policies := g.state.fascist_policies,
      election_tracker := g.state.election_tracker,
      alive_players := (g.state.players.filter (fun p => p.is_alive)).map Player.name,
      phase := g.state.phase,
      round := g.state.round_number }
  let info :=
    if player.is_fascist then
      { info with
          fascist_team :=
            some ((g.state.players.filter (fun p => p.is_fascist)).map Player.name),
          hitler := (g.state.players.find? (fun p => p.is_hitler)).map Player.name }
    else info
  let info :=
    if player.is_hitler && 7 ≤ g.num_players then
      { info with
          fascist_team :=
            some ((g.state.players.filter (fun p => p.role == Role.fascist)).map Player.name) }
    else info
  info

/-- The tokens accounted for by the spec's conservation invariant: draw pile,
discard pile, and the two enacted-policy counters. -/
def GameState.token_total (st : GameState) : Nat :=
  st.draw_pile.length + st.discard_pile.length + st.liberal_policies + st.fascist_policies

/-! Concrete fixtures used by counterexamples and witnesses. -/

/-- Fixture player: Hitler in slot 0. -/
def pA : Player := { id := 0, name := "A", role := Role.hitler, party := Party.fascist }

/-- Fixture player: the fascist conspirator in slot 1. -/
def pB : Player := { id := 1, name := "B", role := Role.fascist, party := Party.fascist }

/-- Fixture player: a liberal in slot 2. -/
def pC : Player := { id := 2, name := "C", role := Role.liberal, party := Party.liberal }

/-- Fixture player: a liberal in slot 3. -/
def pD : Player := { id := 3, name := "D", role := Role.liberal, party := Party.liberal }

/-- Fixture player: a liberal in slot 4. -/
def pE : Player := { id := 4, name := "E", role := Role.liberal, party := Party.liberal }

/-- A valid 5-player roster. -/
def fivePlayers : List Player := [pA, pB, pC, pD, pE]

/-- The unshuffled 17-token deck (6 liberal, 11 fascist). -/
def fullDeck : List PolicyType :=
  List.replicate 6 PolicyType.liberal ++ List.replicate 11 PolicyType.fascist

/-- A terminated 5-player game (liberals won on 5 policies). -/
def gOver : SecretHitlerGame :=
  { num_players := 5,
    state :=
      { players := fivePlayers,
        liberal_policies := 5,
        fascist_policies := 2,
        draw_pile := [PolicyType.fascist, PolicyType.fascist],
        discard_pile := [PolicyType.fascist, PolicyType.liberal],
        current_president_index := 0,
        phase := GamePhase.gameOver,
        game_over := true,
        winner := some Party.liberal } }

/-- A fresh 5-player game holding the full 17-token deck. -/
def gDeck : SecretHitlerGame :=
  { num_players := 5, state := { players := fivePlayers, draw_pile := fullDeck } }

/-- Fixture player for the 6-player roster (Hitler, slot 0). -/
def qA : Player := { id := 0, name := "A", role := Role.hitler, party := Party.fascist }

/-- Fixture player for the 6-player roster (liberal, slot 1). -/
def qB : Player := { id := 1, name := "B", role := Role.liberal, party := Party.liberal }

/-- Fixture player for the 6-player roster (liberal, slot 2). -/
def qC : Player := { id := 2, name := "C", role := Role.liberal, party := Party.liberal }

/-- Fixture player for the 6-player roster (fascist, slot 3). -/
def qD : Player := { id := 3, name := "D", role := Role.fascist, party := Party.fascist }

/-- Fixture player for the 6-player roster (liberal, slot 4). -/
def qE : Player := { id := 4, name := "E", role := Role.liberal, party := Party.liberal }

/-- Fixture player for the 6-player roster (liberal, slot 5, executed). -/
def qF : Player :=
  { id := 5, name := "F", role := Role.liberal, party := Party.liberal, is_alive := false }

/-- A 6-player game in which one player has been executed (5 living), the
previous president is `qB` and the previous chancellor is `qC`. -/
def gSix : SecretHitlerGame :=
  { num_players := 6,
    state :=
      { players := [qA, qB, qC, qD, qE, qF],
        current_president_index := 0,
        previous_president := some qB,
        previous_chancellor := some qC,
        draw_pile := [PolicyType.fascist, PolicyType.liberal] } }

/-- A 5-player game in which `pD` has been executed (4 living). -/
def gFourAlive : SecretHitlerGame :=
  { num_players := 5,
    state :=
      { players := [pA, pB, pC, { pD with is_alive := false }, pE],
        current_president_index := 0,
        current_government := some { president := pA, chancellor := pB },
        phase := GamePhase.election,
        draw_pile := [PolicyType.liberal, PolicyType.fascist] } }

/-- A 5-player game one rejection away from a chaos policy: tracker at 2,
with a standing previous government. -/
def gChaos : SecretHitlerGame :=
  { num_players := 5,
    state :=
      { players := fivePlayers,
        election_tracker := 2,
        previous_president := some pB,
        previous_chancellor := some pC,
        current_president_index := 0,
        current_government := some { president := pA, chancellor := pD },
        phase := GamePhase.election,
        draw_pile := [PolicyType.fascist, PolicyType.liberal] } }

/-- A 5-player game in the election phase with tracker 0, used for election
witnesses. -/
def gElect : SecretHitlerGame :=
  { num_players := 5,
    state :=
      { players := fivePlayers,
        current_president_index := 0,
        current_government := some { president := pA, chancellor := pC },
        phase := GamePhase.election,
        draw_pile := [PolicyType.liberal, PolicyType.fascist, PolicyType.fascist] } }

/-- Fixture player for the 7-player roster (Hitler, slot 0). -/
def rA : Player := { id := 0, name := "A", role := Role.hitler, party := Party.fascist }

/-- Fixture player for the 7-player roster (fascist, slot 1). -/
def rB : Player := { id := 1, name := "B", role := Role.fascist, party := Party.fascist }

/-- Fixture player for the 7-player roster (fascist, slot 2). -/
def rC : Player := { id := 2, name := "C", role := Role.fascist, party := Party.fascist }

/-- Fixture player for the 7-player roster (liberal, slot 3). -/
def rD : Player := { id := 3, name := "D", role := Role.liberal, party := Party.liberal }

/-- Fixture player for the 7-player roster (liberal, slot 4). -/
def rE : Player := { id := 4, name := "E", role := Role.liberal, party := Party.liberal }

/-- Fixture player for the 7-player roster (liberal, slot 5). -/
def rF : Player := { id := 5, name := "F", role := Role.liberal, party := Party.liberal }

/-- Fixture player for the 7-player roster (liberal, slot 6). -/
def rG : Player := { id := 6, name := "G", role := Role.liberal, party := Party.liberal }

/-- A fresh 7-player game. -/
def gSeven : SecretHitlerGame :=
  { num_players := 7, state := { players := [rA, rB, rC, rD, rE, rF, rG] } }

/-! Helper lemmas about the president-rotation search. -/

/-- The bounded search of `findLiving` returns the first living slot at
offset `k` from `start`, provided some probe within the fuel bound hits a
living slot. -/
lemma findLiving_spec (players : List Player) :
    ∀ (fuel start : Nat), start < players.length →
    (∃ k < fuel, aliveAt players ((start + k) % players.length) = true) →
    ∃ k < fuel, findLiving players fuel start = (start + k) % players.length ∧
      aliveAt players ((start + k) % players.length) = true ∧
      ∀ j < k, aliveAt players ((start + j) % players.length) = false := by
  intro fuel
  induction fuel with
  | zero =>
      intro start _ hex
      obtain ⟨k, hk, _⟩ := hex
      exact absurd hk (by omega)
  | succ f ih =>
      intro start hstart hex
      by_cases hal : aliveAt players start = true
      · refine ⟨0, by omega, ?_, ?_, ?_⟩
        · simp only [findLiving, hal, if_true, Nat.add_zero, Nat.mod_eq_of_lt hstart]
        · simpa only [Nat.add_zero, Nat.mod_eq_of_lt hstart] using hal
        · intro j hj
          exact absurd hj (by omega)
      · have haln : aliveAt players start = false := by
          simpa using hal
        obtain ⟨k, hk, hkalive⟩ := hex
        have hk0 : k ≠ 0 := by
          intro h
          rw [h, Nat.add_zero, Nat.mod_eq_of_lt hstart, haln] at hkalive
          exact absurd hkalive (by simp)
        obtain ⟨k1, rfl⟩ : ∃ k1, k = k1 + 1 := ⟨k - 1, by omega⟩
        have hn : 0 < players.length := by omega
        have hstart1 : (start + 1) % players.length < players.length := Nat.mod_lt _ hn
        have hshift : ∀ j : Nat,
            ((start + 1) % players.length + j) % players.length
              = (start + (j + 1)) % players.length := by
          intro j
          rw [Nat.mod_add_mod]
          congr 1
          omega
        have hex1 : ∃ k < f,
            aliveAt players (((start + 1) % players.length + k) % players.length) = true := by
          refine ⟨k1, by omega, ?_⟩
          rw [hshift]
          exact hkalive
        obtain ⟨k0, hk0f, heq, halive0, hmin0⟩ := ih ((start + 1) % players.length) hstart1 hex1
        refine ⟨k0 + 1, by omega, ?_, ?_, ?_⟩
        · simp only [findLiving, haln, Bool.false_eq_true, if_false]
          rw [heq, hshift]
        · rw [← hshift]
          exact halive0
        · intro j hj
          match j with
          | 0 =>
              rw [Nat.add_zero, Nat.mod_eq_of_lt hstart]
              exact haln
          | j1 + 1 =>
              rw [← hshift]
              exact hmin0 j1 (by omega)

/-- If some player is alive, every starting slot has a living slot among the
next `players.length` probes of the rotation. -/
lemma exists_alive_probe (players : List Player) (start : Nat)
    (hstart : start < players.length)
    (halive : ∃ p ∈ players, p.is_alive = true) :
    ∃ k < players.length, aliveAt players ((start + k) % players.length) = true := by
  obtain ⟨p, hp, hpa⟩ := halive
  obtain ⟨m, hm, hpm⟩ := List.mem_iff_getElem.mp hp
  have hsome : players[m]? = some p := by
    rw [List.getElem?_eq_getElem hm, hpm]
  have hAm : aliveAt players m = true := by
    simp [aliveAt, hsome, hpa]
  have hn : 0 < players.length := by omega
  refine ⟨(m + players.length - start) % players.length, Nat.mod_lt _ hn, ?_⟩
  have h1 : (start + (m + players.length - start) % players.length) % players.length
      = ((m + players.length - start) % players.length + start) % players.length := by
    rw [Nat.add_comm]
  rw [h1, Nat.mod_add_mod]
  have h2 : m + players.length - start + start = m + players.length := by omega
  rw [h2, Nat.add_mod_right, Nat.mod_eq_of_lt hm]
  exact hAm

/-- Specification of `GameState.advance_president`: the players list is
untouched and the new president slot is the first living slot strictly after
the old one, walking slot indices modulo the full player count. -/
lemma advance_president_spec (st : GameState)
    (halive : ∃ p ∈ st.players, p.is_alive = true) :
    (st.advance_president).players = st.players ∧
    ∃ k, 1 ≤ k ∧ k ≤ st.players.length ∧
      (st.advance_president).current_president_index
        = (st.current_president_index + k) % st.players.length ∧
      aliveAt st.players
        ((st.current_president_index + k) % st.players.length) = true ∧
      ∀ j, 1 ≤ j → j < k →
        aliveAt st.players
          ((st.current_president_index + j) % st.players.length) = false := by
  have hn : 0 < st.players.length := by
    obtain ⟨p, hp, _⟩ := halive
    exact List.length_pos.mpr (List.ne_nil_of_mem hp)
  have hstart : (st.current_president_index + 1) % st.players.length < st.players.length :=
    Nat.mod_lt _ hn
  have hex := exists_alive_probe st.players _ hstart halive
  obtain ⟨k0, hk0, heq, halive0, hmin0⟩ :=
    findLiving_spec st.players st.players.length _ hstart hex
  have hshift : ∀ j : Nat,
      ((st.current_president_index + 1) % st.players.length + j) % st.players.length
        = (st.current_president_index + (j + 1)) % st.players.length := by
    intro j
    rw [Nat.mod_add_mod]
    congr 1
    omega
  refine ⟨rfl, k0 + 1, by omega, by omega, ?_, ?_, ?_⟩
  · show findLiving st.players st.players.length
        ((st.current_president_index + 1) % st.players.length) = _
    rw [heq, hshift]
  · rw [← hshift]
    exact halive0
  · intro j h1 h2
    obtain ⟨j1, rfl⟩ : ∃ j1, j = j1 + 1 := ⟨j - 1, by omega⟩
    rw [← hshift]
    exact hmin0 j1 (by omega)

/-- Specification of `SecretHitlerGame._advance_to_next_government`: players
untouched, phase back to nomination, round incremented, government cleared,
and the new president slot is the first living slot after the old one. -/
lemma advance_to_next_government_spec (g : SecretHitlerGame)
    (halive : ∃ p ∈ g.state.players, p.is_alive = true) :
    (g.advance_to_next_government).state.players = g.state.players ∧
    (g.advance_to_next_government).state.phase = GamePhase.nomination ∧
    (g.advance_to_next_government).state.round_number = g.state.round_number + 1 ∧
    (g.advance_to_next_government).state.current_government = none ∧
    aliveAt g.state.players (g.advance_to_next_government).state.current_president_index
      = true ∧
    ∃ k, 1 ≤ k ∧ k ≤ g.state.players.length ∧
      (g.advance_to_next_government).state.current_president_index
        = (g.state.current_president_index + k) % g.state.players.length ∧
      ∀ j, 1 ≤ j → j < k →
        aliveAt g.state.players
          ((g.state.current_president_index + j) % g.state.players.length) = false := by
  obtain ⟨hpl, k, hk1, hk2, hidx, halk, hmin⟩ := advance_president_spec g.state halive
  have hidx2 : (g.advance_to_next_government).state.current_president_index
      = (g.state.advance_president).current_president_index := rfl
  refine ⟨rfl, rfl, rfl, rfl, ?_, k, hk1, hk2, ?_, hmin⟩
  · rw [hidx2, hidx]
    exact halk
  · rw [hidx2, hidx]

/-- After `_advance_to_next_government` the president slot holds a living
player, provided some player of the input game is alive. -/
lemma advance_alive_after_advance (g2 : SecretHitlerGame)
    (hex : ∃ p ∈ g2.state.players, p.is_alive = true) :
    aliveAt g2.advance_to_next_government.state.players
      g2.advance_to_next_government.state.current_president_index = true := by
  obtain ⟨hpl, _, _, _, halk, _⟩ := advance_to_next_government_spec g2 hex
  rw [hpl]
  exact halk

/-- C8: the current president slot refers to a living player after every
operation that moves the presidency, and advancing walks slot indices modulo
the full player count, skipping eliminated players, without removing or
reindexing players.  In particular this holds after `execute_player` (as long
as a living player remains) and after `special_election` on a living
nominee. -/
theorem c8_president_slot_always_living (g : SecretHitlerGame) :
    ((∃ p ∈ g.state.players, p.is_alive = true) →
      (g.state.advance_president).players = g.state.players ∧
      ∃ k, 1 ≤ k ∧ k ≤ g.state.players.length ∧
        (g.state.advance_president).current_president_index
          = (g.state.current_president_index + k) % g.state.players.length ∧
        aliveAt g.state.players
          ((g.state.current_president_index + k) % g.state.players.length) = true ∧
        ∀ j, 1 ≤ j → j < k →
          aliveAt g.state.players
            ((g.state.current_president_index + j) % g.state.players.length) = false) ∧
    (∀ target : Player,
      (g.execute_player target).state.players.length = g.state.players.length ∧
      (g.execute_player target).state.players.map Player.id
        = g.state.players.map Player.id ∧
      ((∃ p ∈ (g.execute_player target).state.players, p.is_alive = true) →
        aliveAt (g.execute_player target).state.players
          (g.execute_player target).state.current_president_index = true)) ∧
    (∀ nominee : Player, aliveAt g.state.players nominee.id = true →
      (g.special_election nominee).state.players = g.state.players ∧
      aliveAt (g.special_election nominee).state.players
        (g.special_election nominee).state.current_president_index = true) ∧
    ((∃ p ∈ g.state.players, p.is_alive = true) →
      (g.advance_to_next_government).state.players = g.state.players ∧
      aliveAt (g.advance_to_next_government).state.players
        (g.advance_to_next_government).state.current_president_index = true) := by
  refine ⟨?_, ?_, ?_, ?_⟩
  · intro halive
    exact advance_president_spec g.state halive
  · intro target
    have hplayers : (g.execute_player target).state.players
        = g.state.players.map
            (fun p => if p.id == target.id then { p with is_alive := false } else p) := by
      simp only [SecretHitlerGame.execute_player]
      split <;> rfl
    refine ⟨by rw [hplayers]; simp, ?_, ?_⟩
    · rw [hplayers, List.map_map]
      refine List.map_congr_left ?_
      intro p _
      by_cases h : p.id = target.id <;> simp [h]
    · intro hex
      rw [hplayers] at hex
      simp only [SecretHitlerGame.execute_player]
      apply advance_alive_after_advance
      split <;> exact hex
  · intro nominee hnom
    exact ⟨rfl, hnom⟩
  · intro halive
    obtain ⟨hpl, _, _, _, halk, _⟩ := advance_to_next_government_spec g halive
    exact ⟨hpl, by rw [hpl]; exact halk⟩

/-- C8 witness: in the concrete 5-player game `gFourAlive`, executing `pE`
leaves the presidency on a living player. -/
theorem c8_witness :
    aliveAt (gFourAlive.execute_player pE).state.players
      (gFourAlive.execute_player pE).state.current_president_index = true :=
  ((c8_president_slot_always_living gFourAlive).2.1 pE).2.2 (by decide)

/-- C10: after `special_election(nominee)` the president slot is the
nominee's id, the phase is Nomination and the round number increases by 1;
the following advance continues from the special president's successor (the
new slot is the first living slot after `nominee.id`), not from the deposed
rotation. -/
theorem c10_special_election_rotation (g : SecretHitlerGame) (nominee : Player)
    (halive : ∃ p ∈ g.state.players, p.is_alive = true) :
    (g.special_election nominee).state.current_president_index = nominee.id ∧
    (g.special_election nominee).state.phase = GamePhase.nomination ∧
    (g.special_election nominee).state.round_number = g.state.round_number + 1 ∧
    ∃ k, 1 ≤ k ∧ k ≤ g.state.players.length ∧
      ((g.special_election nominee).advance_to_next_government).state.current_president_index
        = (nominee.id + k) % g.state.players.length ∧
      aliveAt g.state.players ((nominee.id + k) % g.state.players.length) = true ∧
      ∀ j, 1 ≤ j → j < k →
        aliveAt g.state.players ((nominee.id + j) % g.state.players.length) = false := by
  have halive2 : ∃ p ∈ (g.special_election nominee).state.players, p.is_alive = true := halive
  obtain ⟨hpl, hph, hrn, hgov, halk, k, hk1, hk2, hidx, hmin⟩ :=
    advance_to_next_government_spec (g.special_election nominee) halive2
  rw [hidx] at halk
  exact ⟨rfl, rfl, rfl, k, hk1, hk2, hidx, halk, hmin⟩

/-- C10 witness: in the concrete game `gDeck`, a special election for `pD`
puts the presidency on slot 3 in the Nomination phase. -/
theorem c10_witness :
    (gDeck.special_election pD).state.current_president_index = pD.id ∧
    (gDeck.special_election pD).state.phase = GamePhase.nomination ∧
    (gDeck.special_election pD).state.round_number = gDeck.state.round_number + 1 :=
  let h := c10_special_election_rotation gDeck pD ⟨pA, by decide, rfl⟩
  ⟨h.1, h.2.1, h.2.2.1⟩

/-- C1 counterexample: in the terminated game `gOver` (liberals already won),
nominating `pB` does not fail — it succeeds and mutates the state to the
Election phase, refuting the claim that every mutating operation after
termination fails and leaves the state unchanged. -/
theorem c1_counterexample :
    gOver.state.game_over = true ∧
    ∃ gov g', gOver.nominate_chancellor pB = Except.ok (gov, g') ∧
      g'.state.phase = GamePhase.election ∧ g' ≠ gOver :=
  ⟨rfl, _, _, rfl, rfl, by decide⟩

/-- Specification of `_chaos_policy` when at least one token exists across
the two piles: the draw succeeds, exactly one token leaves the piles, the
matching counter is incremented, the win check runs, nothing is appended to
the discard pile, and all fields other than the deck, the counters and the
win flags are untouched. -/
lemma chaos_policy_spec (shuffle : List PolicyType → List PolicyType)
    (hS : ∀ l, (shuffle l).length = l.length) (g : SecretHitlerGame)
    (hdeck : 1 ≤ g.state.draw_pile.length + g.state.discard_pile.length) :
    ∃ g3, g.chaos_policy shuffle = Except.ok g3 ∧
      g3.state.draw_pile.length + g3.state.discard_pile.length
        = g.state.draw_pile.length + g.state.discard_pile.length - 1 ∧
      (g3.state.discard_pile = g.state.discard_pile ∨ g3.state.discard_pile = []) ∧
      g3.state.election_tracker = g.state.election_tracker ∧
      g3.state.previous_president = g.state.previous_president ∧
      g3.state.previous_chancellor = g.state.previous_chancellor ∧
      g3.state.players = g.state.players ∧
      g3.state.current_president_index = g.state.current_president_index ∧
      g3.state.round_number = g.state.round_number ∧
      g3.num_players = g.num_players ∧
      ((g3.state.liberal_policies = g.state.liberal_policies + 1 ∧
        g3.state.fascist_policies = g.state.fascist_policies ∧
        (g.state.game_over = false →
          ((g3.state.game_over = true ↔ 5 ≤ g.state.liberal_policies + 1) ∧
           (g3.state.game_over = true → g3.state.winner = some Party.liberal)))) ∨
       (g3.state.fascist_policies = g.state.fascist_policies + 1 ∧
        g3.state.liberal_policies = g.state.liberal_policies ∧
        (g.state.game_over = false →
          ((g3.state.game_over = true ↔ 6 ≤ g.state.fascist_policies + 1) ∧
           (g3.state.game_over = true → g3.state.winner = some Party.fascist))))) := by
  rcases hdp : g.state.draw_pile with _ | ⟨d0, rest⟩
  · -- empty draw pile: the discard pile is reshuffled in before drawing
    rcases hsh : shuffle ([] ++ g.state.discard_pile) with _ | ⟨d, r⟩
    · exfalso
      have := hS ([] ++ g.state.discard_pile)
      rw [hsh] at this
      simp at this
      rw [hdp] at hdeck
      simp at hdeck
      omega
    · have hlen : g.state.discard_pile.length = r.length + 1 := by
        have := hS ([] ++ g.state.discard_pile)
        rw [hsh] at this
        simpa using this.symm
      rw [List.nil_append] at hsh
      simp only [SecretHitlerGame.chaos_policy, SecretHitlerGame.draw_policies, hdp,
        List.length_nil, List.nil_append, hsh, zero_lt_one, ite_true,
        List.take_succ_cons, List.take_zero, List.drop_succ_cons, List.drop_zero,
        SecretHitlerGame.end_game]
      cases d <;>
        simp only [show (PolicyType.liberal == PolicyType.liberal) = true from rfl,
          show (PolicyType.fascist == PolicyType.fascist) = true from rfl,
          show (PolicyType.fascist == PolicyType.liberal) = false from rfl,
          show (PolicyType.liberal == PolicyType.fascist) = false from rfl,
          eq_self_iff_true, Bool.false_eq_true, ite_true, ite_false]
      · split
        next hwin =>
          exact ⟨_, rfl, by simp; omega, Or.inr rfl, rfl, rfl, rfl, rfl, rfl, rfl, rfl,
            Or.inl ⟨rfl, rfl, fun hgo => ⟨⟨fun _ => hwin, fun _ => rfl⟩, fun _ => rfl⟩⟩⟩
        next hwin =>
          exact ⟨_, rfl, by simp; omega, Or.inr rfl, rfl, rfl, rfl, rfl, rfl, rfl, rfl,
            Or.inl ⟨rfl, rfl, by
              intro hgo
              refine ⟨⟨fun h => ?_, fun h5 => absurd h5 hwin⟩, fun h => ?_⟩ <;>
                (rw [hgo] at h; exact Bool.noConfusion h)⟩⟩
      · split
        next hwin =>
          exact ⟨_, rfl, by simp; omega, Or.inr rfl, rfl, rfl, rfl, rfl, rfl, rfl, rfl,
            Or.inr ⟨rfl, rfl, fun hgo => ⟨⟨fun _ => hwin, fun _ => rfl⟩, fun _ => rfl⟩⟩⟩
        next hwin =>
          exact ⟨_, rfl, by simp; omega, Or.inr rfl, rfl, rfl, rfl, rfl, rfl, rfl, rfl,
            Or.inr ⟨rfl, rfl, by
              intro hgo
              refine ⟨⟨fun h => ?_, fun h5 => absurd h5 hwin⟩, fun h => ?_⟩ <;>
                (rw [hgo] at h; exact Bool.noConfusion h)⟩⟩
  · -- nonempty draw pile: draw the top token directly
    have hnot : ¬ ((d0 :: rest).length < 1) := by
      simp
    simp only [SecretHitlerGame.chaos_policy, SecretHitlerGame.draw_policies,
      if_neg hnot, hdp, List.take_succ_cons, List.take_zero, List.drop_succ_cons,
      List.drop_zero, SecretHitlerGame.end_game]
    cases d0 <;>
      simp only [show (PolicyType.liberal == PolicyType.liberal) = true from rfl,
        show (PolicyType.fascist == PolicyType.fascist) = true from rfl,
        show (PolicyType.fascist == PolicyType.liberal) = false from rfl,
        show (PolicyType.liberal == PolicyType.fascist) = false from rfl,
        eq_self_iff_true, Bool.false_eq_true, ite_true, ite_false]
    · split
      next hwin =>
        exact ⟨_, rfl, by simp [List.length_cons] <;> omega, Or.inl rfl, rfl, rfl, rfl, rfl,
          rfl, rfl, rfl,
          Or.inl ⟨rfl, rfl, fun hgo => ⟨⟨fun _ => hwin, fun _ => rfl⟩, fun _ => rfl⟩⟩⟩
      next hwin =>
        exact ⟨_, rfl, by simp [List.length_cons] <;> omega, Or.inl rfl, rfl, rfl, rfl, rfl,
          rfl, rfl, rfl,
          Or.inl ⟨rfl, rfl, by
            intro hgo
            refine ⟨⟨fun h => ?_, fun h5 => absurd h5 hwin⟩, fun h => ?_⟩ <;>
              (rw [hgo] at h; exact Bool.noConfusion h)⟩⟩
    · split
      next hwin =>
        exact ⟨_, rfl, by simp [List.length_cons] <;> omega, Or.inl rfl, rfl, rfl, rfl, rfl,
          rfl, rfl, rfl,
          Or.inr ⟨rfl, rfl, fun hgo => ⟨⟨fun _ => hwin, fun _ => rfl⟩, fun _ => rfl⟩⟩⟩
      next hwin =>
        exact ⟨_, rfl, by simp [List.length_cons] <;> omega, Or.inl rfl, rfl, rfl, rfl, rfl,
          rfl, rfl, rfl,
          Or.inr ⟨rfl, rfl, by
            intro hgo
            refine ⟨⟨fun h => ?_, fun h5 => absurd h5 hwin⟩, fun h => ?_⟩ <;>
              (rw [hgo] at h; exact Bool.noConfusion h)⟩⟩

/-- Every vote is Ja or Nein, so the two filtered tallies partition the
ballot list. -/
lemma filter_ja_add_filter_nein (votes : List Vote) :
    (votes.filter (fun v => v == Vote.ja)).length
      + (votes.filter (fun v => v == Vote.nein)).length = votes.length := by
  induction votes with
  | nil => rfl
  | cons v vs ih =>
      cases v <;> simp [List.filter_cons] <;> omega

/-- Master specification of `conduct_election` on a valid ballot list with a
standing government, a tracker within its reachable range and a non-empty
combined deck: the call succeeds, the returned flag is the strict-majority
test, the 17-token account is conserved, an election resets the tracker, a
rejection increments it, and the third rejection resolves a chaos policy
whose effects are itemized. -/
lemma conduct_election_full (shuffle : List PolicyType → List PolicyType)
    (hS : ∀ l, (shuffle l).length = l.length) (g : SecretHitlerGame)
    (votes : List Vote) (gov : Government)
    (hv : votes.length = g.state.players.length)
    (hgov : g.state.current_government = some gov)
    (htr : g.state.election_tracker ≤ 2)
    (hdeck : 1 ≤ g.state.draw_pile.length + g.state.discard_pile.length) :
    ∃ b g', g.conduct_election shuffle votes = Except.ok (b, g') ∧
      (b = true ↔ votes.length - (votes.filter (fun v => v == Vote.ja)).length
        < (votes.filter (fun v => v == Vote.ja)).length) ∧
      g'.state.token_total = g.state.token_total ∧
      (b = true → g'.state.election_tracker = 0) ∧
      (b = false → g.state.election_tracker < 2 →
        g'.state.election_tracker = g.state.election_tracker + 1 ∧
        g'.state.liberal_policies = g.state.liberal_policies ∧
        g'.state.fascist_policies = g.state.fascist_policies ∧
        g'.state.phase = GamePhase.nomination ∧
        g'.state.round_number = g.state.round_number + 1) ∧
      (b = false → g.state.election_tracker = 2 →
        g'.state.election_tracker = 0 ∧
        g'.state.previous_president = g.state.previous_president ∧
        g'.state.previous_chancellor = g.state.previous_chancellor ∧
        g'.state.players = g.state.players ∧
        g'.state.phase = GamePhase.nomination ∧
        g'.state.round_number = g.state.round_number + 1 ∧
        g'.state.draw_pile.length + g'.state.discard_pile.length
          = g.state.draw_pile.length + g.state.discard_pile.length - 1 ∧
        (g'.state.discard_pile = g.state.discard_pile ∨ g'.state.discard_pile = []) ∧
        ((g'.state.liberal_policies = g.state.liberal_policies + 1 ∧
          g'.state.fascist_policies = g.state.fascist_policies ∧
          (g.state.game_over = false →
            ((g'.state.game_over = true ↔ 5 ≤ g.state.liberal_policies + 1) ∧
             (g'.state.game_over = true → g'.state.winner = some Party.liberal)))) ∨
         (g'.state.fascist_policies = g.state.fascist_policies + 1 ∧
          g'.state.liberal_policies = g.state.liberal_policies ∧
          (g.state.game_over = false →
            ((g'.state.game_over = true ↔ 6 ≤ g.state.fascist_policies + 1) ∧
             (g'.state.game_over = true → g'.state.winner = some Party.fascist))))) ∧
        ((∃ p ∈ g.state.players, p.is_alive = true) →
          aliveAt g'.state.players g'.state.current_president_index = true)) := by
  have hguard : (votes.length != g.state.players.length) = false := by
    simp [hv]
  by_cases helec : votes.length - (votes.filter (fun v => v == Vote.ja)).length
      < (votes.filter (fun v => v == Vote.ja)).length
  · -- government elected
    simp only [SecretHitlerGame.conduct_election, hguard, Bool.false_eq_true, ite_false,
      if_pos helec, hgov]
    split
    next hwin =>
      exact ⟨true, _, rfl, by simp [helec], rfl, fun _ => rfl,
        fun h => Bool.noConfusion h, fun h => Bool.noConfusion h⟩
    next hwin =>
      exact ⟨true, _, rfl, by simp [helec], rfl, fun _ => rfl,
        fun h => Bool.noConfusion h, fun h => Bool.noConfusion h⟩
  · -- government rejected
    simp only [SecretHitlerGame.conduct_election, hguard, Bool.false_eq_true, ite_false,
      if_neg helec]
    split
    next htr3 =>
      -- third rejection: chaos policy
      have htr3' : 3 ≤ g.state.election_tracker + 1 := htr3
      obtain ⟨g3, hg3, hsum, hdisc, htrk, hpp, hpc, hpl, hidx, hrn, hnp, hpol⟩ :=
        chaos_policy_spec shuffle hS
          { g with state := { g.state with election_tracker := g.state.election_tracker + 1 } }
          hdeck
      rw [hg3]
      have hpl' : g3.state.players = g.state.players := hpl
      have hrn' : g3.state.round_number = g.state.round_number := hrn
      have hsum' : g3.state.draw_pile.length + g3.state.discard_pile.length
          = g.state.draw_pile.length + g.state.discard_pile.length - 1 := hsum
      refine ⟨false, _, rfl, by simp [helec], ?_, fun h => Bool.noConfusion h, ?_, ?_⟩
      · -- token conservation through the chaos draw
        show g3.state.draw_pile.length + g3.state.discard_pile.length
            + g3.state.liberal_policies + g3.state.fascist_policies
          = g.state.token_total
        rcases hpol with ⟨hl, hf, _⟩ | ⟨hf, hl, _⟩ <;>
          (rw [hsum', hl, hf]
           simp only [GameState.token_total]
           omega)
      · intro _ hlt
        exact absurd htr3' (by omega)
      · intro _ htr2
        refine ⟨rfl, hpp, hpc, hpl', rfl, ?_, hsum', ?_, ?_, ?_⟩
        · show g3.state.round_number + 1 = g.state.round_number + 1
          rw [hrn']
        · exact hdisc
        · exact hpol
        · intro halive
          have halive4 : ∃ p ∈ g3.state.players, p.is_alive = true := by
            rw [hpl']
            exact halive
          obtain ⟨hpl2, _, _, _, halk, _⟩ := advance_to_next_government_spec
            { g3 with state := { g3.state with election_tracker := 0 } } halive4
          exact halk
    next htr3 =>
      have htr3' : ¬ (3 ≤ g.state.election_tracker + 1) := htr3
      refine ⟨false, _, rfl, by simp [helec], rfl, fun h => Bool.noConfusion h, ?_, ?_⟩
      · intro _ _
        exact ⟨rfl, rfl, rfl, rfl, rfl⟩
      · intro _ htr2
        exact absurd htr3' (by omega)

/-- C2 (amended): the 17-token account must count the drawn hand.  The
initial deck has 17 tokens; drawing conserves hand-plus-account; the
president's discard turns a 3-token hand into a 2-token hand plus one
discard; the chancellor's enactment absorbs the 2-token hand into one
discard and one counter increment; elections (including chaos enactments),
executions, special elections and nominations leave the account unchanged.
The four named quantities alone therefore sum to 17 exactly when no drawn
tokens are outstanding. -/
theorem c2_token_conservation (shuffle : List PolicyType → List PolicyType)
    (hS : ∀ l, (shuffle l).length = l.length) (g : SecretHitlerGame) (count : Nat)
    (pols3 pols2 : List PolicyType) (disc en : PolicyType) (votes : List Vote)
    (gov : Government) (target nominee c : Player) :
    (GameConfig.create_initial_draw_pile shuffle).length = 17 ∧
    ((g.draw_policies shuffle count).1.length
      + (g.draw_policies shuffle count).2.state.token_total = g.state.token_total) ∧
    (pols3.length = 3 → disc ∈ pols3 →
      ∃ rem g', g.president_discard_policy pols3 disc = Except.ok (rem, g') ∧
        rem.length + g'.state.token_total = pols3.length + g.state.token_total) ∧
    (pols2.length = 2 → en ∈ pols2 → g.state.current_government = some gov →
      ∃ act g', g.chancellor_enact_policy pols2 en = Except.ok (act, g') ∧
        g'.state.token_total = pols2.length + g.state.token_total) ∧
    (votes.length = g.state.players.length → g.state.current_government = some gov →
      g.state.election_tracker ≤ 2 →
      1 ≤ g.state.draw_pile.length + g.state.discard_pile.length →
      ∃ b g', g.conduct_election shuffle votes = Except.ok (b, g') ∧
        g'.state.token_total = g.state.token_total) ∧
    (g.execute_player target).state.token_total = g.state.token_total ∧
    (g.special_election nominee).state.token_total = g.state.token_total ∧
    (∀ gov2 g', g.nominate_chancellor c = Except.ok (gov2, g') →
      g'.state.token_total = g.state.token_total) := by
  refine ⟨?_, ?_, ?_, ?_, ?_, ?_, rfl, ?_⟩
  · rw [GameConfig.create_initial_draw_pile, hS]
    rfl
  · simp only [SecretHitlerGame.draw_policies]
    split <;>
      (simp [GameState.token_total, List.length_take, List.length_drop, hS,
         List.length_append]
       omega)
  · intro h3 hmem
    obtain ⟨a, b, c0, rfl⟩ := List.length_eq_three.mp h3
    cases a <;> cases b <;> cases c0 <;> cases disc <;>
      first
        | exact absurd hmem (by decide)
        | exact ⟨_, _, rfl, by simp [GameState.token_total, List.length_append] <;> omega⟩
  · intro h2 hmem hgov
    obtain ⟨a, b, rfl⟩ := List.length_eq_two.mp h2
    cases a <;> cases b <;> cases en <;>
      first
        | exact absurd hmem (by decide)
        | (rcases hact : GameConfig.get_executive_action g.num_players
              (g.state.fascist_policies + 1) with _ | act0 <;>
            (simp only [SecretHitlerGame.chancellor_enact_policy, SecretHitlerGame.end_game, hgov,
               show (PolicyType.fascist == PolicyType.liberal) = false from rfl,
               show (PolicyType.liberal == PolicyType.liberal) = true from rfl,
               show (PolicyType.fascist == PolicyType.fascist) = true from rfl,
               show (PolicyType.liberal == PolicyType.fascist) = false from rfl,
               Bool.false_eq_true, eq_self_iff_true, ite_true, ite_false,
               apply_ite GameState.current_government, apply_ite GameState.discard_pile,
               apply_ite GameState.liberal_policies, apply_ite GameState.fascist_policies,
               apply_ite GameState.players, apply_ite GameState.election_tracker,
               apply_ite GameState.draw_pile, apply_ite GameState.current_president_index,
               apply_ite GameState.previous_president, apply_ite GameState.previous_chancellor,
               apply_ite GameState.round_number, apply_ite GameState.phase,
               apply_ite GameState.game_over, apply_ite GameState.winner, ite_self, hact]
             exact ⟨_, _, rfl, by
               simp [GameState.token_total, List.length_append,
                 SecretHitlerGame.advance_to_next_government, GameState.advance_president]
               omega⟩))
  · intro hv hgov htr hdeck
    obtain ⟨b, g', hEq, _, htok, _⟩ :=
      conduct_election_full shuffle hS g votes gov hv hgov htr hdeck
    exact ⟨b, g', hEq, htok⟩
  · simp only [SecretHitlerGame.execute_player]
    split <;> rfl
  · intro gov2 g' h
    simp only [SecretHitlerGame.nominate_chancellor] at h
    repeat' split at h
    all_goals
      first
        | exact Except.noConfusion h
        | (injection h with h1
           injection h1 with ha hb
           subst hb
           rfl)

/-- C2 witness: the amended conservation statement instantiated on the
concrete game `gElect` with the identity shuffle. -/
theorem c2_witness :
    (GameConfig.create_initial_draw_pile id).length = 17 ∧
    ((gElect.draw_policies id 3).1.length
      + (gElect.draw_policies id 3).2.state.token_total = gElect.state.token_total) :=
  let h := c2_token_conservation id (fun l => rfl) gElect 3
    [PolicyType.liberal, PolicyType.liberal, PolicyType.fascist]
    [PolicyType.liberal, PolicyType.fascist] PolicyType.liberal PolicyType.fascist
    (List.replicate 5 Vote.ja) { president := pA, chancellor := pC } pB pC pD
  ⟨h.1, h.2.1⟩

/-- C5: with a valid ballot list (one per list entry), a standing government,
a tracker in its reachable range and a non-empty combined deck, the election
passes exactly when the Ja tally strictly exceeds the Nein tally (a tie
rejects); any election resets the tracker to 0; any rejection increments it
by exactly 1 and enacts nothing — except the rejection that takes the
tracker to 3, which enacts exactly one chaos policy and leaves the tracker
at 0. -/
theorem c5_majority_and_tracker (shuffle : List PolicyType → List PolicyType)
    (hS : ∀ l, (shuffle l).length = l.length) (g : SecretHitlerGame)
    (votes : List Vote) (gov : Government)
    (hv : votes.length = g.state.players.length)
    (hgov : g.state.current_government = some gov)
    (htr : g.state.election_tracker ≤ 2)
    (hdeck : 1 ≤ g.state.draw_pile.length + g.state.discard_pile.length) :
    ∃ b g', g.conduct_election shuffle votes = Except.ok (b, g') ∧
      (b = true ↔ (votes.filter (fun v => v == Vote.nein)).length
        < (votes.filter (fun v => v == Vote.ja)).length) ∧
      (b = true → g'.state.election_tracker = 0) ∧
      (b = false → g.state.election_tracker < 2 →
        g'.state.election_tracker = g.state.election_tracker + 1 ∧
        g'.state.liberal_policies = g.state.liberal_policies ∧
        g'.state.fascist_policies = g.state.fascist_policies) ∧
      (b = false → g.state.election_tracker = 2 →
        g'.state.election_tracker = 0 ∧
        g'.state.liberal_policies + g'.state.fascist_policies
          = g.state.liberal_policies + g.state.fascist_policies + 1) := by
  obtain ⟨b, g', hEq, hiff, htok, h3, h4, h5⟩ :=
    conduct_election_full shuffle hS g votes gov hv hgov htr hdeck
  have hcount := filter_ja_add_filter_nein votes
  refine ⟨b, g', hEq, ?_, h3, ?_, ?_⟩
  · rw [hiff]
    constructor <;> intro <;> omega
  · intro hb hlt
    exact ⟨(h4 hb hlt).1, (h4 hb hlt).2.1, (h4 hb hlt).2.2.1⟩
  · intro hb htr2
    obtain ⟨ht0, _, _, _, _, _, _, _, hpol, _⟩ := h5 hb htr2
    refine ⟨ht0, ?_⟩
    rcases hpol with ⟨hl, hf, _⟩ | ⟨hf, hl, _⟩ <;> omega

/-- C5 witness: a unanimous Ja vote in `gElect` elects and resets the
tracker. -/
theorem c5_witness :
    ∃ b g', gElect.conduct_election id (List.replicate 5 Vote.ja) = Except.ok (b, g') ∧
      (b = true ↔ ((List.replicate 5 Vote.ja).filter (fun v => v == Vote.nein)).length
        < ((List.replicate 5 Vote.ja).filter (fun v => v == Vote.ja)).length) ∧
      (b = true → g'.state.election_tracker = 0) :=
  let h := c5_majority_and_tracker id (fun l => rfl) gElect (List.replicate 5 Vote.ja)
    { president := pA, chancellor := pC } (by decide) rfl (by decide) (by decide)
  let ⟨b, g', hEq, hiff, h3, _, _⟩ := h
  ⟨b, g', hEq, hiff, h3⟩

/-- C6 (amended): the third consecutive rejection resolves a chaos policy —
exactly one token is drawn from the deck, the matching enacted counter is
incremented without anything being appended to the discard pile, the win
check runs, the tracker is reset to 0, and the presidency advances with the
phase returning to Nomination; however `previous_president` and
`previous_chancellor` are NOT cleared (the source never resets term limits
on chaos, contrary to the claim). -/
theorem c6_chaos_resolution (shuffle : List PolicyType → List PolicyType)
    (hS : ∀ l, (shuffle l).length = l.length) (g : SecretHitlerGame)
    (votes : List Vote) (gov : Government)
    (hv : votes.length = g.state.players.length)
    (hgov : g.state.current_government = some gov)
    (htr2 : g.state.election_tracker = 2)
    (hdeck : 1 ≤ g.state.draw_pile.length + g.state.discard_pile.length)
    (hrej : ((List.filter (fun v => v == Vote.ja) votes).length
      ≤ (votes.filter (fun v => v == Vote.nein)).length)) :
    ∃ g', g.conduct_election shuffle votes = Except.ok (false, g') ∧
      g'.state.election_tracker = 0 ∧
      g'.state.draw_pile.length + g'.state.discard_pile.length
        = g.state.draw_pile.length + g.state.discard_pile.length - 1 ∧
      (g'.state.discard_pile = g.state.discard_pile ∨ g'.state.discard_pile = []) ∧
      ((g'.state.liberal_policies = g.state.liberal_policies + 1 ∧
        g'.state.fascist_policies = g.state.fascist_policies ∧
        (g.state.game_over = false →
          ((g'.state.game_over = true ↔ 5 ≤ g.state.liberal_policies + 1) ∧
           (g'.state.game_over = true → g'.state.winner = some Party.liberal)))) ∨
       (g'.state.fascist_policies = g.state.fascist_policies + 1 ∧
        g'.state.liberal_policies = g.state.liberal_policies ∧
        (g.state.game_over = false →
          ((g'.state.game_over = true ↔ 6 ≤ g.state.fascist_policies + 1) ∧
           (g'.state.game_over = true → g'.state.winner = some Party.fascist))))) ∧
      g'.state.previous_president = g.state.previous_president ∧
      g'.state.previous_chancellor = g.state.previous_chancellor ∧
      g'.state.players = g.state.players ∧
      g'.state.phase = GamePhase.nomination ∧
      g'.state.round_number = g.state.round_number + 1 ∧
      ((∃ p ∈ g.state.players, p.is_alive = true) →
        aliveAt g'.state.players g'.state.current_president_index = true) := by
  obtain ⟨b, g', hEq, hiff, htok, h3, h4, h5⟩ :=
    conduct_election_full shuffle hS g votes gov hv hgov (by omega) hdeck
  have hcount := filter_ja_add_filter_nein votes
  have hb : b = false := by
    cases b
    · rfl
    · exact absurd (hiff.mp rfl) (by omega)
  subst hb
  obtain ⟨ht0, hpp, hpc, hpl, hph, hrn, hsum, hdisc, hpol, halive⟩ := h5 rfl htr2
  exact ⟨g', hEq, ht0, hsum, hdisc, hpol, hpp, hpc, hpl, hph, hrn, halive⟩

/-- C6 witness: in the concrete game `gChaos` (tracker at 2) an all-Nein
vote triggers the chaos resolution. -/
theorem c6_witness :
    ∃ g', gChaos.conduct_election id (List.replicate 5 Vote.nein) = Except.ok (false, g') ∧
      g'.state.election_tracker = 0 ∧
      g'.state.draw_pile.length + g'.state.discard_pile.length
        = gChaos.state.draw_pile.length + gChaos.state.discard_pile.length - 1 ∧
      (g'.state.discard_pile = gChaos.state.discard_pile ∨ g'.state.discard_pile = []) ∧
      ((g'.state.liberal_policies = gChaos.state.liberal_policies + 1 ∧
        g'.state.fascist_policies = gChaos.state.fascist_policies ∧
        (gChaos.state.game_over = false →
          ((g'.state.game_over = true ↔ 5 ≤ gChaos.state.liberal_policies + 1) ∧
           (g'.state.game_over = true → g'.state.winner = some Party.liberal)))) ∨
       (g'.state.fascist_policies = gChaos.state.fascist_policies + 1 ∧
        g'.state.liberal_policies = gChaos.state.liberal_policies ∧
        (gChaos.state.game_over = false →
          ((g'.state.game_over = true ↔ 6 ≤ gChaos.state.fascist_policies + 1) ∧
           (g'.state.game_over = true → g'.state.winner = some Party.fascist))))) ∧
      g'.state.previous_president = gChaos.state.previous_president ∧
      g'.state.previous_chancellor = gChaos.state.previous_chancellor ∧
      g'.state.players = gChaos.state.players ∧
      g'.state.phase = GamePhase.nomination ∧
      g'.state.round_number = gChaos.state.round_number + 1 ∧
      ((∃ p ∈ gChaos.state.players, p.is_alive = true) →
        aliveAt g'.state.players g'.state.current_president_index = true) :=
  c6_chaos_resolution id (fun l => rfl) gChaos (List.replicate 5 Vote.nein)
    { president := pA, chancellor := pD } (by decide) rfl rfl (by decide) (by decide)

/-- C1 (amended): the engine has no game-over guard — no operation consults
the `game_over` flag.  After termination, `_advance_to_next_government` (and
hence every operation built on it, e.g. `execute_player`) still resets the
phase to Nomination and advances the round, and `nominate_chancellor` still
succeeds for a nominee on the eligibility list, mutating the phase to
Election; termination is recorded only in `game_over`/`winner`. -/
theorem c1_amended (g : SecretHitlerGame) (hover : g.state.game_over = true) :
    ((g.advance_to_next_government).state.phase = GamePhase.nomination ∧
     (g.advance_to_next_government).state.round_number = g.state.round_number + 1 ∧
     (g.advance_to_next_government).state.game_over = true) ∧
    (∀ target : Player,
      (g.execute_player target).state.phase = GamePhase.nomination ∧
      (g.execute_player target).state.game_over = true) ∧
    (∀ c el, g.get_eligible_chancellors = some el → c ∈ el →
      ∃ gov g', g.nominate_chancellor c = Except.ok (gov, g') ∧
        g'.state.phase = GamePhase.election ∧
        g'.state.current_government = some gov ∧
        g'.state.game_over = true) := by
  refine ⟨⟨rfl, rfl, hover⟩, ?_, ?_⟩
  · intro target
    refine ⟨rfl, ?_⟩
    simp only [SecretHitlerGame.execute_player]
    show (SecretHitlerGame.advance_to_next_government _).state.game_over = true
    split
    · rfl
    · exact hover
  · intro c el hel hc
    have hcont : el.contains c = true := List.elem_iff.mpr hc
    cases hpres : g.state.get_current_president with
    | none =>
        exfalso
        rw [SecretHitlerGame.get_eligible_chancellors, hpres] at hel
        exact absurd hel (by simp)
    | some president =>
        simp only [SecretHitlerGame.nominate_chancellor, hel, hcont, Bool.not_true,
          Bool.false_eq_true, if_false, hpres]
        exact ⟨_, _, rfl, rfl, rfl, hover⟩

/-- C1 witness: in the concrete terminated game `gOver`, advancing still
re-enters Nomination and executing still runs, with `game_over` retained. -/
theorem c1_witness :
    (gOver.advance_to_next_government).state.phase = GamePhase.nomination ∧
    (gOver.execute_player pE).state.game_over = true :=
  ⟨(c1_amended gOver rfl).1.1, ((c1_amended gOver rfl).2.1 pE).2⟩

/-- C2 counterexample: in the concrete game `gDeck` the four accounted
quantities sum to 17, but immediately after the draw operation they sum to
14 (the three drawn tokens are in the president's hand), refuting the claim
that the sum equals 17 after every operation including the draw. -/
theorem c2_counterexample :
    gDeck.state.token_total = 17 ∧
    ((gDeck.draw_policies id 3).2).state.token_total = 14 ∧
    ((gDeck.draw_policies id 3).2).state.token_total ≠ 17 := by
  refine ⟨by decide, by decide, by decide⟩

/-- C3 counterexample: in `gSix` (6-player game, one executed, so 5 living)
the player `qB` is living, is not the current president and is not the
previous chancellor, and with only 5 living players the claim would make the
previous president `qB` eligible — but the engine excludes `qB` because it
compares the original player count (6) against 5, and nominating `qB`
fails. -/
theorem c3_counterexample :
    gSix.get_eligible_chancellors = some [qD, qE] ∧
    (gSix.state.players.filter (fun p => p.is_alive)).length = 5 ∧
    gSix.state.get_current_president = some qA ∧
    gSix.state.previous_president = some qB ∧
    gSix.state.previous_chancellor = some qC ∧
    qB ∈ gSix.state.players ∧ qB.is_alive = true ∧ qB.id ≠ qA.id ∧ qB.id ≠ qC.id ∧
    qB ∉ [qD, qE] ∧
    gSix.nominate_chancellor qB = Except.error GameError.ineligibleChancellor := by
  refine ⟨by decide, by decide, by decide, by decide, by decide, by decide, by decide,
    by decide, by decide, by decide, rfl⟩

/-- C3 (amended): for any state whose term-limit flags only mark the
previous chancellor (an invariant of reachable states), the eligible set is
exactly the living players excluding the current president, the previous
chancellor, and — if and only if the game's original total player count
exceeds 5 (not the living count) — the previous president; nominating any
player outside this list fails with the ineligible-chancellor error. -/
theorem c3_amended (g : SecretHitlerGame) (president : Player)
    (hpres : g.state.get_current_president = some president)
    (hTL : ∀ p ∈ g.state.players, p.is_term_limited = true →
      ∃ pc, g.state.previous_chancellor = some pc ∧ pc.id = p.id) :
    ∃ el, g.get_eligible_chancellors = some el ∧
      (∀ c, c ∈ el ↔
        c ∈ g.state.players ∧ c.is_alive = true ∧ c.id ≠ president.id ∧
        (∀ pc, g.state.previous_chancellor = some pc → c.id ≠ pc.id) ∧
        (5 < g.num_players →
          ∀ pp, g.state.previous_president = some pp → c.id ≠ pp.id)) ∧
      (∀ c, g.nominate_chancellor c = Except.error GameError.ineligibleChancellor
        ↔ c ∉ el) := by
  have hmatch_pc : ∀ c : Player,
      ((match g.state.previous_chancellor with
        | some pc => c.id != pc.id
        | none => true) = true)
        ↔ (∀ pc, g.state.previous_chancellor = some pc → c.id ≠ pc.id) := by
    intro c
    cases g.state.previous_chancellor <;> simp
  have hmatch_pp : ∀ c : Player,
      ((match g.state.previous_president with
        | some pp => if 5 < g.num_players then c.id != pp.id else true
        | none => true) = true)
        ↔ (5 < g.num_players →
            ∀ pp, g.state.previous_president = some pp → c.id ≠ pp.id) := by
    intro c
    cases g.state.previous_president with
    | none => simp
    | some pp => by_cases hn : 5 < g.num_players <;> simp [hn]
  have hel : g.get_eligible_chancellors
      = some (g.state.players.filter (fun player =>
          player.is_alive &&
          player.id != president.id &&
          !player.is_term_limited &&
          (match g.state.previous_chancellor with
           | some pc => player.id != pc.id
           | none => true) &&
          (match g.state.previous_president with
           | some pp => if 5 < g.num_players then player.id != pp.id else true
           | none => true))) := by
    simp only [SecretHitlerGame.get_eligible_chancellors, hpres]
  refine ⟨_, hel, ?_, ?_⟩
  · intro c
    rw [List.mem_filter]
    constructor
    · rintro ⟨hm, hpred⟩
      simp only [Bool.and_eq_true] at hpred
      obtain ⟨⟨⟨⟨ha, hne⟩, htl⟩, hpcb⟩, hppb⟩ := hpred
      exact ⟨hm, ha, by simpa using hne, (hmatch_pc c).mp hpcb, (hmatch_pp c).mp hppb⟩
    · rintro ⟨hm, ha, hne, hpcp, hppp⟩
      refine ⟨hm, ?_⟩
      simp only [Bool.and_eq_true]
      refine ⟨⟨⟨⟨ha, by simpa using hne⟩, ?_⟩, (hmatch_pc c).mpr hpcp⟩, (hmatch_pp c).mpr hppp⟩
      cases hb : c.is_term_limited
      · simp
      · obtain ⟨pc0, hprev, hid⟩ := hTL c hm hb
        exact absurd (hpcp pc0 hprev) (by simp [hid])
  · intro c
    constructor
    · intro herr hcmem
      have hcont : (g.state.players.filter _).contains c = true := List.elem_iff.mpr hcmem
      rw [SecretHitlerGame.nominate_chancellor, hel] at herr
      simp only [hcont, Bool.not_true, Bool.false_eq_true, if_false, hpres] at herr
      exact Except.noConfusion herr
    · intro hnm
      cases h : (g.state.players.filter (fun player =>
          player.is_alive &&
          player.id != president.id &&
          !player.is_term_limited &&
          (match g.state.previous_chancellor with
           | some pc => player.id != pc.id
           | none => true) &&
          (match g.state.previous_president with
           | some pp => if 5 < g.num_players then player.id != pp.id else true
           | none => true))).contains c with
      | true => exact absurd (List.elem_iff.mp h) hnm
      | false =>
          rw [SecretHitlerGame.nominate_chancellor, hel]
          simp only [h, Bool.not_false, if_true]

/-- C3 witness: the amended characterization instantiated on the concrete
6-player game `gSix` with current president `qA`. -/
theorem c3_witness :
    ∃ el, gSix.get_eligible_chancellors = some el ∧
      (∀ c, c ∈ el ↔
        c ∈ gSix.state.players ∧ c.is_alive = true ∧ c.id ≠ qA.id ∧
        (∀ pc, gSix.state.previous_chancellor = some pc → c.id ≠ pc.id) ∧
        (5 < gSix.num_players →
          ∀ pp, gSix.state.previous_president = some pp → c.id ≠ pp.id)) ∧
      (∀ c, gSix.nominate_chancellor c = Except.error GameError.ineligibleChancellor
        ↔ c ∉ el) :=
  c3_amended gSix qA rfl (by decide)

/-- C4: evaluation at the failing input.  In `gFourAlive` (5 players, one
executed) the engine rejects the 4 ballots supplied by the 4 living players
— the count its own orchestrator produces — and instead accepts 5 ballots,
i.e. it compares against the total player count rather than the living-player
count. -/
theorem c4_failing_input :
    (gFourAlive.state.players.filter (fun p => p.is_alive)).length = 4 ∧
    gFourAlive.state.players.length = 5 ∧
    gFourAlive.conduct_election id [Vote.ja, Vote.ja, Vote.ja, Vote.nein]
      = Except.error GameError.voteCountMismatch ∧
    ∃ g', gFourAlive.conduct_election id [Vote.ja, Vote.ja, Vote.ja, Vote.nein, Vote.nein]
      = Except.ok (true, g') := by
  refine ⟨by decide, by decide, rfl, ⟨_, rfl⟩⟩

/-- C7: both legislative discards remove a single token instance.  The
president's discard on a 3-token hand returns a 2-token hand whose multiset
plus the discarded token is the input multiset, appending the discarded token
to the discard pile; the chancellor's enactment on a 2-token hand counts the
enacted token and appends the one other instance to the discard pile — when
both tokens are equal, the discarded token is that same type. -/
theorem c7_discard_single_instance (g : SecretHitlerGame)
    (pols3 pols2 : List PolicyType) (disc en : PolicyType) (gov : Government) :
    (pols3.length = 3 → disc ∈ pols3 →
      ∃ rem g', g.president_discard_policy pols3 disc = Except.ok (rem, g') ∧
        rem.length = 2 ∧ (disc :: rem).Perm pols3 ∧
        g'.state.discard_pile = g.state.discard_pile ++ [disc]) ∧
    (pols2.length = 2 → en ∈ pols2 → g.state.current_government = some gov →
      ∃ d act g', g.chancellor_enact_policy pols2 en = Except.ok (act, g') ∧
        g'.state.discard_pile = g.state.discard_pile ++ [d] ∧
        (en :: [d]).Perm pols2 ∧
        (en = PolicyType.liberal →
          g'.state.liberal_policies = g.state.liberal_policies + 1 ∧
          g'.state.fascist_policies = g.state.fascist_policies) ∧
        (en = PolicyType.fascist →
          g'.state.fascist_policies = g.state.fascist_policies + 1 ∧
          g'.state.liberal_policies = g.state.liberal_policies)) := by
  constructor
  · intro h3 hmem
    obtain ⟨a, b, c, rfl⟩ := List.length_eq_three.mp h3
    cases a <;> cases b <;> cases c <;> cases disc <;>
      first
        | exact absurd hmem (by decide)
        | exact ⟨_, _, rfl, rfl, by decide, rfl⟩
  · intro h2 hmem hgov
    obtain ⟨a, b, rfl⟩ := List.length_eq_two.mp h2
    cases a <;> cases b <;> cases en <;>
      first
        | exact absurd hmem (by decide)
        | (rcases hact : GameConfig.get_executive_action g.num_players
              (g.state.fascist_policies + 1) with _ | act0 <;>
            (simp only [SecretHitlerGame.chancellor_enact_policy, SecretHitlerGame.end_game, hgov,
               show (PolicyType.fascist == PolicyType.liberal) = false from rfl,
               show (PolicyType.liberal == PolicyType.liberal) = true from rfl,
               show (PolicyType.fascist == PolicyType.fascist) = true from rfl,
               show (PolicyType.liberal == PolicyType.fascist) = false from rfl,
               Bool.false_eq_true, eq_self_iff_true, ite_true, ite_false,
               apply_ite GameState.current_government, apply_ite GameState.discard_pile,
               apply_ite GameState.liberal_policies, apply_ite GameState.fascist_policies,
               apply_ite GameState.players, apply_ite GameState.election_tracker,
               apply_ite GameState.draw_pile, apply_ite GameState.current_president_index,
               apply_ite GameState.previous_president, apply_ite GameState.previous_chancellor,
               apply_ite GameState.round_number, apply_ite GameState.phase,
               apply_ite GameState.game_over, apply_ite GameState.winner, ite_self, hact]
             exact ⟨_, _, _, rfl, rfl, by decide,
               by first | exact fun h => ⟨rfl, rfl⟩ | simp,
               by first | exact fun h => ⟨rfl, rfl⟩ | simp⟩))

/-- C7 witness: the president's discard and the chancellor's enactment on
concrete duplicate-type hands. -/
theorem c7_witness :
    (∃ rem g', gDeck.president_discard_policy
        [PolicyType.fascist, PolicyType.fascist, PolicyType.liberal] PolicyType.fascist
        = Except.ok (rem, g') ∧
      rem.length = 2 ∧
      (PolicyType.fascist :: rem).Perm
        [PolicyType.fascist, PolicyType.fascist, PolicyType.liberal] ∧
      g'.state.discard_pile = gDeck.state.discard_pile ++ [PolicyType.fascist]) ∧
    (∃ d act g', gElect.chancellor_enact_policy
        [PolicyType.fascist, PolicyType.fascist] PolicyType.fascist
        = Except.ok (act, g') ∧
      g'.state.discard_pile = gElect.state.discard_pile ++ [d] ∧
      (PolicyType.fascist :: [d]).Perm [PolicyType.fascist, PolicyType.fascist] ∧
      (PolicyType.fascist = PolicyType.liberal →
        g'.state.liberal_policies = gElect.state.liberal_policies + 1 ∧
        g'.state.fascist_policies = gElect.state.fascist_policies) ∧
      (PolicyType.fascist = PolicyType.fascist →
        g'.state.fascist_policies = gElect.state.fascist_policies + 1 ∧
        g'.state.liberal_policies = gElect.state.liberal_policies)) :=
  ⟨(c7_discard_single_instance gDeck
      [PolicyType.fascist, PolicyType.fascist, PolicyType.liberal]
      [PolicyType.fascist, PolicyType.fascist] PolicyType.fascist PolicyType.fascist
      { president := pA, chancellor := pC }).1 rfl (by decide),
   (c7_discard_single_instance gElect
      [PolicyType.fascist, PolicyType.fascist, PolicyType.liberal]
      [PolicyType.fascist, PolicyType.fascist] PolicyType.fascist PolicyType.fascist
      { president := pA, chancellor := pC }).2 rfl (by decide) rfl⟩

/-- C6 counterexample: in `gChaos` (tracker at 2, a standing previous
government) a rejected election triggers the chaos policy — the fascist
counter increments and the tracker resets — but `previous_president` and
`previous_chancellor` are not cleared, refuting the claim that chaos resets
the term limits. -/
theorem c6_counterexample :
    gChaos.state.election_tracker = 2 ∧
    gChaos.state.previous_president = some pB ∧
    gChaos.state.previous_chancellor = some pC ∧
    (gChaos.conduct_election id (List.replicate 5 Vote.nein)).map
        (fun r => (r.1, r.2.state.fascist_policies, r.2.state.election_tracker,
          r.2.state.previous_president, r.2.state.previous_chancellor))
      = Except.ok (false, 1, 0, some pB, some pC) := by
  refine ⟨by decide, by decide, by decide, rfl⟩

/-- C9 (amended): in the per-player view, the Hitler player receives a
fascist roster at every player count — the full fascist-party roster (Hitler
included) when the game has fewer than 7 players, overwritten by the
conspirator-role roster when it has 7 or more; conspirators always receive
the fascist-party roster (the leader and each other) and the leader's name;
liberal players receive neither field. -/
theorem c9_amended (g : SecretHitlerGame) (p : Player)
    (hp : p ∈ g.state.players)
    (hparty : ∀ q ∈ g.state.players, q.party = GameConfig.get_party_from_role q.role) :
    (p.role = Role.hitler →
      ∃ team, (g.get_game_info_for_player p).fascist_team = some team ∧
        (7 ≤ g.num_players →
          ∀ s, s ∈ team ↔ ∃ q ∈ g.state.players, q.role = Role.fascist ∧ q.name = s) ∧
        (g.num_players < 7 →
          ∀ s, s ∈ team ↔ ∃ q ∈ g.state.players, q.party = Party.fascist ∧ q.name = s)) ∧
    (p.role = Role.fascist →
      ∃ team, (g.get_game_info_for_player p).fascist_team = some team ∧
        (∀ s, s ∈ team ↔ ∃ q ∈ g.state.players, q.party = Party.fascist ∧ q.name = s) ∧
        (g.get_game_info_for_player p).hitler
          = (g.state.players.find? (fun q => q.is_hitler)).map Player.name) ∧
    (p.role = Role.liberal →
      (g.get_game_info_for_player p).fascist_team = none ∧
      (g.get_game_info_for_player p).hitler = none) := by
  refine ⟨?_, ?_, ?_⟩
  · intro hrole
    have hpf : p.is_fascist = true := by
      simp [Player.is_fascist, hparty p hp, hrole, GameConfig.get_party_from_role]
    have hph : p.is_hitler = true := by
      simp [Player.is_hitler, hrole]
    by_cases hn : 7 ≤ g.num_players
    · have hteam : (g.get_game_info_for_player p).fascist_team
          = some ((g.state.players.filter (fun q => q.role == Role.fascist)).map Player.name) := by
        simp [SecretHitlerGame.get_game_info_for_player, hpf, hph, hn]
      refine ⟨_, hteam, ?_, ?_⟩
      · intro _ s
        simp only [List.mem_map, List.mem_filter, beq_iff_eq]
        constructor
        · rintro ⟨q, ⟨hq, hqr⟩, hqn⟩
          exact ⟨q, hq, hqr, hqn⟩
        · rintro ⟨q, hq, hqr, hqn⟩
          exact ⟨q, ⟨hq, hqr⟩, hqn⟩
      · intro hlt
        omega
    · have hteam : (g.get_game_info_for_player p).fascist_team
          = some ((g.state.players.filter (fun q => q.is_fascist)).map Player.name) := by
        simp [SecretHitlerGame.get_game_info_for_player, hpf, hph, hn]
      refine ⟨_, hteam, ?_, ?_⟩
      · intro hge
        omega
      · intro _ s
        simp only [List.mem_map, List.mem_filter, Player.is_fascist, beq_iff_eq]
        constructor
        · rintro ⟨q, ⟨hq, hqp⟩, hqn⟩
          exact ⟨q, hq, hqp, hqn⟩
        · rintro ⟨q, hq, hqp, hqn⟩
          exact ⟨q, ⟨hq, hqp⟩, hqn⟩
  · intro hrole
    have hpf : p.is_fascist = true := by
      simp [Player.is_fascist, hparty p hp, hrole, GameConfig.get_party_from_role]
    have hph : p.is_hitler = false := by
      simp [Player.is_hitler, hrole]
    have hteam : (g.get_game_info_for_player p).fascist_team
        = some ((g.state.players.filter (fun q => q.is_fascist)).map Player.name) := by
      simp [SecretHitlerGame.get_game_info_for_player, hpf, hph]
    refine ⟨_, hteam, ?_, ?_⟩
    · intro s
      simp only [List.mem_map, List.mem_filter, Player.is_fascist, beq_iff_eq]
      constructor
      · rintro ⟨q, ⟨hq, hqp⟩, hqn⟩
        exact ⟨q, hq, hqp, hqn⟩
      · rintro ⟨q, hq, hqp, hqn⟩
        exact ⟨q, ⟨hq, hqp⟩, hqn⟩
    · simp [SecretHitlerGame.get_game_info_for_player, hpf, hph]
  · intro hrole
    have hpf : p.is_fascist = false := by
      simp [Player.is_fascist, hparty p hp, hrole, GameConfig.get_party_from_role]
    have hph : p.is_hitler = false := by
      simp [Player.is_hitler, hrole]
    constructor
    · simp [SecretHitlerGame.get_game_info_for_player, hpf, hph]
    · simp [SecretHitlerGame.get_game_info_for_player, hpf, hph]

/-- C9 witness: the conspirator `rB` in the concrete 7-player game `gSeven`
always receives the fascist-party roster. -/
theorem c9_witness :
    ∃ team, (gSeven.get_game_info_for_player rB).fascist_team = some team ∧
      (∀ s, s ∈ team ↔ ∃ q ∈ gSeven.state.players, q.party = Party.fascist ∧ q.name = s) ∧
      (gSeven.get_game_info_for_player rB).hitler
        = (gSeven.state.players.find? (fun q => q.is_hitler)).map Player.name :=
  (c9_amended gSeven rB (by decide) (by decide)).2.1 rfl

/-- C9 counterexample: in the 7-player game `gSeven` the claim says Hitler's
view contains no fascist roster (7 > 6), but the engine gives Hitler the
conspirator roster at any player count. -/
theorem c9_counterexample :
    gSeven.num_players = 7 ∧
    rA.role = Role.hitler ∧
    (gSeven.get_game_info_for_player rA).fascist_team = some ["B", "C"] := by
  refine ⟨by decide, by decide, by decide⟩

end SecretHitler
